import Mathlib

/-!
Verification of the bighead-ai frontend against its specification.

Shallow embedding of the relevant client-side code:
  - frontend/src/hooks/useWebSocket.js (message envelope, reconnect policy)
  - frontend/src/components/Modals/QuestionModal.jsx (wager clamping, buzzer
    guards, buzzer activation state machine, end-game screen)
  - frontend/src/components/GameBoard (question-cell click routing)
  - the backend session resolution logic, modelled from the spec where the
    backend source is not part of the repository snapshot.

JavaScript numbers that only ever hold integers are modelled as Int (scores,
bet amounts) or Nat (close codes, delays); nullable values as Option; JSON
values as an inductive Json type.
-/

namespace BigHead

/-! ## A small JSON value model (for the wire envelope, claim C2) -/

/-- JSON values as sent over the game WebSocket. -/
inductive Json where
  | null : Json
  | bool (b : Bool) : Json
  | num (n : Int) : Json
  | str (s : String) : Json
  | arr (xs : List Json) : Json
  | obj (fields : List (String × Json)) : Json

/-- Association-list lookup among the fields of a JSON object. -/
def getFieldIn : List (String × Json) → String → Option Json
  | [], _ => none
  | (k', v) :: rest, k => if k' == k then some v else getFieldIn rest k

/-- Lookup of a top-level field of a JSON value (`undefined` is `none`;
property access on a non-object yields `undefined`). -/
def getField : Json → String → Option Json
  | .obj fields, k => getFieldIn fields k
  | _, _ => none

/-- JavaScript truthiness of a JSON value. -/
def truthy : Json → Bool
  | .null => false
  | .bool b => b
  | .num n => n != 0
  | .str s => s != ""
  | .arr _ => true
  | .obj _ => true

/-- From `useWebSocket.js` (`sendMessage`): the check is that the first
argument has object type and a truthy `topic` property, in which case it is
taken as the full envelope. -/
def hasTruthyTopic (message : Json) : Bool :=
  match getField message "topic" with
  | some v => truthy v
  | none => false

/-- From `useWebSocket.js` lines 85-88: the object serialized by `sendMessage`.
If `message` is an object with a (truthy) `topic` property it is sent as is;
otherwise the envelope is constructed as
`\x7b topic: message, payload: payload \x7d`. -/
def messageToSend (message payload : Json) : Json :=
  if hasTruthyTopic message then message
  else .obj [("topic", message), ("payload", payload)]

/-! ## Reconnect policy (`useWebSocket.js`, claims C3 and C8) -/

/-- From `useWebSocket.js` line 18. -/
def maxReconnectAttempts : Nat := 5

/-- From `useWebSocket.js` line 57: the backoff delay computed when a retry is
scheduled with the reconnect counter at `attempts`:
`Math.min(1000 * Math.pow(2, attempts), 10000)`. -/
def reconnectDelay (attempts : Nat) : Nat :=
  min (1000 * 2 ^ attempts) 10000

/-- The mutable state of the hook relevant to reconnection:
`reconnectAttempts.current`. -/
structure WSClient where
  attempts : Nat
deriving DecidableEq

/-- From `useWebSocket.js` lines 41-45 (`onopen`): a successful open resets the
reconnect counter. -/
def onOpen (_s : WSClient) : WSClient :=
  { attempts := 0 }

/-- From `useWebSocket.js` lines 47-62 (`onclose`): on close code 4004 no
reconnect is scheduled; otherwise, while fewer than `maxReconnectAttempts`
attempts have been made, a reconnect is scheduled after `reconnectDelay`
milliseconds and the counter is incremented.  Returns the new state and the
scheduled delay (`none` when no reconnect is scheduled). -/
def onClose (s : WSClient) (code : Nat) : WSClient × Option Nat :=
  if code = 4004 then (s, none)
  else if s.attempts < maxReconnectAttempts then
    ({ attempts := s.attempts + 1 }, some (reconnectDelay s.attempts))
  else (s, none)

/-- Process a sequence of close events (with no intervening successful open)
and count how many reconnects get scheduled. -/
def closeRun (s : WSClient) : List Nat → WSClient × Nat
  | [] => (s, 0)
  | c :: cs =>
    let step := onClose s c
    let rest := closeRun step.1 cs
    (rest.1, (if step.2.isSome then 1 else 0) + rest.2)

/-! ## Wager input clamping (`QuestionModal.jsx`, claim C1) -/

/-- From `QuestionModal.jsx` lines 254-259 (`getMaxBet`): the wager ceiling for
the selecting player.  `selectingPlayer` is `state.doubleBigHead?.selectingPlayer`
(`none` when the double-big-head state or its player is absent), `players`
is the player map (`none` when unavailable), associating names to scores.
`players[name]?.score || 0` is the score when present (0 coincides with the
`|| 0` default), else 0. -/
def getMaxBet (selectingPlayer : Option String) (players : Option (List (String × Int))) : Int :=
  match selectingPlayer, players with
  | some sp, some ps => max 1000 ((List.lookup sp ps).getD 0)
  | _, _ => 1000

/-- The result of `parseInt(e.target.value) || 5`: `parsed` is `none` for a
non-numeric input (`parseInt` returned `NaN`); a parsed 0 is falsy and also
replaced by 5. -/
def parsedOr5 (parsed : Option Int) : Int :=
  match parsed with
  | some n => if n = 0 then 5 else n
  | none => 5

/-- From `QuestionModal.jsx` line 283 (the bet input onChange handler): the value stored by
`setBetAmount`, namely `Math.max(5, Math.min(maxBet, parseInt(value) || 5))`. -/
def betOnChange (maxBet : Int) (parsed : Option Int) : Int :=
  max 5 (min maxBet (parsedOr5 parsed))

/-! ## Question-cell click routing (GameBoard, claim C4) -/

/-- A board question as the cell component sees it. -/
structure Question where
  value : Int
  used : Bool
  double_big_head : Bool
deriving DecidableEq

/-- From `GameBoard/index.jsx` lines 27-29: `state.controllingPlayer && playerName
&& state.controllingPlayer === playerName`.  Nullish or empty names are
falsy. -/
def canSelect (controllingPlayer playerName : Option String) : Bool :=
  match controllingPlayer, playerName with
  | some c, some p => c != "" && p != "" && c == p
  | _, _ => false

/-- The WebSocket message a question-cell click produces: a topic and the
`(category, value)` payload. -/
structure CellMessage where
  topic : String
  category : String
  value : Int
deriving DecidableEq

/-- From `QuestionCell.handleClick`: no message when the clicker is neither admin
nor the controlling player, or the question is used, or it is a placeholder;
otherwise the double-big-head topic is used exactly for questions flagged
`double_big_head`, and the plain question-display topic otherwise. -/
def handleClick (isAdmin cellCanSelect isPlaceholder : Bool)
    (q : Question) (categoryName : String) : Option CellMessage :=
  if (!isAdmin && !cellCanSelect) || q.used || isPlaceholder then none
  else if q.double_big_head then
    some ⟨"com.sc2ctl.bighead.double_big_head", categoryName, q.value⟩
  else
    some ⟨"com.sc2ctl.bighead.question_display", categoryName, q.value⟩

/-! ## Buzzer send guards (`QuestionModal.jsx`, claim C5) -/

/-- A buzz message: the topic and the contestant named in the payload. -/
structure BuzzMessage where
  topic : String
  contestant : String
deriving DecidableEq

/-- From `QuestionModal.jsx` lines 230-236 (`handleBuzz`): a buzz is sent only
while the local active-buzzer UI is shown. -/
def handleBuzz (showActiveBuzzer : Bool) (playerName : String) : Option BuzzMessage :=
  if showActiveBuzzer then some ⟨"com.sc2ctl.bighead.buzzer", playerName⟩
  else none

/-- From `QuestionModal.jsx` lines 180-184 (`handleKeyDown`): the spacebar path
calls `handleBuzz` only if the key is Space, the active buzzer is shown, and
the local player is not among `incorrectPlayers`. -/
def handleKeyDown (code : String) (showActiveBuzzer : Bool)
    (incorrectPlayers : List String) (playerName : String) : Option BuzzMessage :=
  if code == "Space" && showActiveBuzzer && !incorrectPlayers.contains playerName then
    handleBuzz showActiveBuzzer playerName
  else none

/-- From `QuestionModal.jsx` lines 330-337: the clickable buzzer element is
rendered only for a non-double-big-head question, with nobody having buzzed
(`lastBuzzer` null or empty is falsy), and the local player not among
`incorrectPlayers`. -/
def buzzerRendered (double_big_head : Bool) (lastBuzzer : Option String)
    (incorrectPlayers : List String) (playerName : String) : Bool :=
  !double_big_head && (match lastBuzzer with | some b => b == "" | none => true)
    && !incorrectPlayers.contains playerName

/-- Clicking the buzzer element: the click can only fire if the element is
rendered, and then runs `handleBuzz`. -/
def clickBuzz (rendered showActiveBuzzer : Bool) (playerName : String) : Option BuzzMessage :=
  if rendered then handleBuzz showActiveBuzzer playerName else none

/-! ## Wager submission guard (`QuestionModal.jsx`, claim C6) -/

/-- A wager submission message. -/
structure BetMessage where
  topic : String
  contestant : String
  bet : Int
deriving DecidableEq

/-- The double-big-head negotiation state held by the client
(`state.doubleBigHead`), reduced to the field the guard reads. -/
structure DoubleBigHead where
  selectingPlayer : String

/-- From `QuestionModal.jsx` lines 239-246 (`handleBetSubmit`): the wager message
is sent only when a double-big-head negotiation is in progress and the local
player is its selecting player. -/
def handleBetSubmit (doubleBigHead : Option DoubleBigHead)
    (playerName : String) (betAmount : Int) : Option BetMessage :=
  match doubleBigHead with
  | some dbh =>
    if playerName == dbh.selectingPlayer then
      some ⟨"com.sc2ctl.bighead.double_big_head_bet", playerName, betAmount⟩
    else none
  | none => none

/-! ## Backend question resolution, modelled from the spec (claim C7) -/

/-- Modelled from the spec: the backend session state machine is not part of
the repository snapshot under src/ (only its e2e tests are), so the player
entity follows §3: name, score, connected flag. -/
structure Player where
  name : String
  score : Int
  connected : Bool
deriving DecidableEq

/-- Modelled from the spec: the transient OpenQuestion of §3, carrying the
wager sub-state and the controller recorded at selection time, which §4.2
requires for the all-incorrect resolution. -/
structure OpenQuestion where
  value : Int
  highStakes : Bool
  wager : Int
  selectingPlayer : String
  prevController : String
  excluded : List String
deriving DecidableEq

/-- Modelled from the spec: an Active session reduced to the fields the resolution rules of section 4.2 touch. -/
structure Session where
  players : List Player
  controller : String
  openQuestion : Option OpenQuestion
deriving DecidableEq

/-- Modelled from the spec (glossary): eligible players are connected and not
excluded from the currently open question. -/
def eligiblePlayers (ps : List Player) (q : OpenQuestion) : List Player :=
  ps.filter (fun p => p.connected && !q.excluded.contains p.name)

/-- Modelled from the spec (§4.2): selecting a question.  Only the
controlling player may select, so the controller at selection time is both
the selecting player and the controller to revert to. -/
def selectQuestion (s : Session) (value : Int) (highStakes : Bool) (wager : Int) : Session :=
  { s with openQuestion := some ⟨value, highStakes, wager, s.controller, s.controller, []⟩ }

/-- Adjust the score of one player by a delta. -/
def addScore (ps : List Player) (name : String) (d : Int) : List Player :=
  ps.map (fun p => if p.name == name then { p with score := p.score + d } else p)

/-- Modelled from the spec (§4.2), the incorrect-answer resolution: for a
high-stakes question the selecting player loses the wager, the question
closes immediately and control stays with the selecting player; for a normal
question the answerer loses the value and is excluded, and when no eligible
player remains the question closes and control reverts to the controller
recorded before selection. -/
def answerIncorrect (s : Session) (answerer : String) : Session :=
  match s.openQuestion with
  | none => s
  | some q =>
    if q.highStakes then
      { players := addScore s.players q.selectingPlayer (-q.wager),
        controller := q.selectingPlayer,
        openQuestion := none }
    else
      let q1 : OpenQuestion := { q with excluded := answerer :: q.excluded }
      let ps1 := addScore s.players answerer (-q.value)
      if (eligiblePlayers ps1 q1).isEmpty then
        { players := ps1, controller := q.prevController, openQuestion := none }
      else
        { players := ps1, controller := s.controller, openQuestion := some q1 }

/-- Invariant tying a session to the controller `c0` who held control before
the current question was selected: once the question is closed the controller
is `c0`, and while a (normal) question is open its recorded previous
controller is `c0`. -/
def ControlInv (c0 : String) (s : Session) : Prop :=
  (s.openQuestion = none → s.controller = c0) ∧
  (∀ q, s.openQuestion = some q → q.prevController = c0 ∧ q.highStakes = false)

/-! ## Buzzer activation state machine (`QuestionModal.jsx`, claim C9) -/

/-- The component state relevant to buzzer activation: the `currentQuestion`
and `buzzerActive` inputs, the `questionRef` and `hasBeenActivatedRef` refs,
the `showActiveBuzzer` local state, the pending 500 ms confirmation timeout
(by its delay), and the two progress-animation intervals with their progress
values.  Questions are identified by an id standing for object identity. -/
structure ModalBuzzerState where
  currentQuestion : Option Nat
  buzzerActive : Bool
  questionRef : Option Nat
  hasBeenActivated : Bool
  showActiveBuzzer : Bool
  pendingConfirm : Option Nat
  timerRunning : Bool
  timerProgress : Nat
  answerTimerRunning : Bool
  answerTimerProgress : Nat
deriving DecidableEq

/-- From `QuestionModal.jsx` lines 35-53, the question-change effect: when a (non
null) question different from the tracked one appears, the tracked ref moves
to it and the activation flag, active-buzzer UI, both progress values and
both animation intervals are reset. -/
def resetEffect (s : ModalBuzzerState) : ModalBuzzerState :=
  match s.currentQuestion with
  | some q =>
    if s.questionRef = some q then s
    else
      { s with questionRef := some q, hasBeenActivated := false,
               showActiveBuzzer := false, timerProgress := 0, answerTimerProgress := 0,
               timerRunning := false, answerTimerRunning := false }
  | none => s

/-- From `QuestionModal.jsx` lines 56-90, the buzzer effect body: on an active
signal, the active UI shows immediately only if an activation was already
confirmed for this question; on the first activation a 500 ms confirmation
timeout is scheduled instead.  An inactive signal hides the active UI at
once and stops the buzzer countdown animation. -/
def buzzerEffect (s : ModalBuzzerState) : ModalBuzzerState :=
  if s.buzzerActive then
    if s.hasBeenActivated then { s with showActiveBuzzer := true }
    else { s with hasBeenActivated := true, pendingConfirm := some 500 }
  else
    { s with showActiveBuzzer := false, timerProgress := 0, timerRunning := false }

/-- Events driving the modal: the open question changing, a buzzer status
signal from the backend, and the pending confirmation timeout firing. -/
inductive ModalEvent where
  | question (q : Option Nat)
  | buzzer (b : Bool)
  | confirmFire

/-- One event step.  A change of `currentQuestion` reruns both effects in
source order after the cleanup of the buzzer effect cancels the pending
confirmation timeout; a change of `buzzerActive` reruns the buzzer effect
after its cleanup; the timeout body (lines 70-76) shows the active buzzer
only if the question is still the tracked one and the buzzer is still
active. -/
def stepModal (s : ModalBuzzerState) : ModalEvent → ModalBuzzerState
  | .question q =>
    if s.currentQuestion = q then s
    else buzzerEffect (resetEffect { s with currentQuestion := q, pendingConfirm := none })
  | .buzzer b =>
    if s.buzzerActive = b then s
    else buzzerEffect { s with buzzerActive := b, pendingConfirm := none }
  | .confirmFire =>
    match s.pendingConfirm with
    | none => s
    | some _ =>
      if s.currentQuestion = s.questionRef ∧ s.buzzerActive = true then
        { s with pendingConfirm := none, showActiveBuzzer := true }
      else { s with pendingConfirm := none }

/-! ## End-game screen (claim C10) -/

/-- One rendered row of the final scoreboard. -/
structure ScoreRow where
  rank : Nat
  name : String
  score : Int
  winnerHighlight : Bool
deriving DecidableEq

/-- Stable descending insertion: the element goes after every earlier entry
whose score is at least as large. -/
def insertByScoreDesc (x : String × Int) : List (String × Int) → List (String × Int)
  | [] => [x]
  | y :: ys => if y.2 < x.2 then x :: y :: ys else y :: insertByScoreDesc x ys

/-- From `EndGameScreen`: `Object.entries(scores).sort((a, b) => b - a)` — the
observable behavior of the stable JS sort with the descending score
comparator. -/
def sortByScoreDesc : List (String × Int) → List (String × Int)
  | [] => []
  | x :: xs => insertByScoreDesc x (sortByScoreDesc xs)

/-- From `EndGameScreen`, the rows: `sortedPlayers.map(([name, score], index) => ...)`,
rank `index + 1`, winner highlight exactly when `name === winner`. -/
def scoreRows (winner : String) : Nat → List (String × Int) → List ScoreRow
  | _, [] => []
  | i, (n, sc) :: rest => ⟨i + 1, n, sc, n == winner⟩ :: scoreRows winner (i + 1) rest

/-- From `EndGameScreen`: `if (!finalResults) return null`, otherwise the rendered
scoreboard rows from the sorted entries of `finalResults.scores` with
`finalResults.winner` highlighted. -/
def renderEndGame (finalResults : Option (List (String × Int) × String)) :
    Option (List ScoreRow) :=
  match finalResults with
  | none => none
  | some (scores, winner) => some (scoreRows winner 0 (sortByScoreDesc scores))

end BigHead

namespace BigHead

/-! ## Theorems for claims C1, C3 -/

/-- Claim C1: every wager stored by the bet input lies in the closed interval
from 5 to `max 1000 score`; the ceiling is `max(1000, selecting player score)`
and defaults to 1000 when the selecting player or the players map is
unavailable; a non-numeric input is replaced by the minimum 5. -/
theorem wager_always_clamped (sp : String) (ps : List (String × Int))
    (selectingPlayer : Option String) (players : Option (List (String × Int)))
    (parsed : Option Int) :
    5 ≤ betOnChange (getMaxBet selectingPlayer players) parsed ∧
    betOnChange (getMaxBet selectingPlayer players) parsed ≤ getMaxBet selectingPlayer players ∧
    getMaxBet (some sp) (some ps) = max 1000 ((List.lookup sp ps).getD 0) ∧
    getMaxBet none players = 1000 ∧
    getMaxBet selectingPlayer none = 1000 ∧
    betOnChange (getMaxBet selectingPlayer players) none = 5 := by
  have hceil : (1000 : Int) ≤ getMaxBet selectingPlayer players := by
    unfold getMaxBet
    match selectingPlayer, players with
    | some sp, some ps => exact le_max_left _ _
    | some sp, none => exact le_refl _
    | none, some ps => exact le_refl _
    | none, none => exact le_refl _
  refine ⟨?_, ?_, rfl, ?_, ?_, ?_⟩
  · unfold betOnChange
    exact le_max_left _ _
  · unfold betOnChange
    have h5 : (5 : Int) ≤ getMaxBet selectingPlayer players := by omega
    have hmin : min (getMaxBet selectingPlayer players) (parsedOr5 parsed) ≤
        getMaxBet selectingPlayer players := min_le_left _ _
    omega
  · unfold getMaxBet
    cases players <;> rfl
  · unfold getMaxBet
    cases selectingPlayer <;> rfl
  · unfold betOnChange parsedOr5
    have : min (getMaxBet selectingPlayer players) 5 = 5 := by
      apply min_eq_right
      omega
    rw [this]
    omega

/-- Claim C3: a closure with the reserved code 4004 never schedules a
reconnect, whatever the attempt counter; a closure with any other code does
schedule a reconnect while the retry limit has not been reached. -/
theorem close4004_never_reconnects (code attempts : Nat) :
    (onClose ⟨attempts⟩ 4004).2 = none ∧
    (code ≠ 4004 → attempts < maxReconnectAttempts →
      (onClose ⟨attempts⟩ code).2 = some (reconnectDelay attempts)) := by
  constructor
  · simp [onClose]
  · intro hc ha
    simp [onClose, hc, ha]

/-- Witness for claim C3 at close code 1006 with a fresh attempt counter. -/
theorem close4004_never_reconnects_witness :
    (onClose ⟨0⟩ 4004).2 = none ∧ (onClose ⟨0⟩ 1006).2 = some 1000 :=
  ⟨(close4004_never_reconnects 1006 0).1,
   (close4004_never_reconnects 1006 0).2 (by decide) (by decide)⟩

/-! ## Theorems for claim C2 (wire envelope field names) -/

/-- Counterexample to claim C2: the envelope serialized for the buzz message
has no field named `kind` at all — the message kind travels in a field named
`topic`. -/
theorem envelope_has_no_kind_field :
    getField (messageToSend (.str "com.sc2ctl.bighead.buzzer")
      (.obj [("contestant", .str "Alice")])) "kind" = none := by
  rfl

/-- Claim C2 as amended: every envelope `sendMessage` constructs from a
string kind carries that kind in a string field named `topic` (not `kind`)
alongside the `payload` field; a first argument that is already an object
with a truthy `topic` property is sent unchanged. -/
theorem envelope_carries_topic_and_payload (t : String) (p : Json) :
    getField (messageToSend (.str t) p) "topic" = some (.str t) ∧
    getField (messageToSend (.str t) p) "payload" = some p ∧
    (∀ m : Json, hasTruthyTopic m = true → messageToSend m p = m) := by
  have hft : hasTruthyTopic (.str t) = false := rfl
  refine ⟨?_, ?_, ?_⟩
  · simp [messageToSend, hft, getField, getFieldIn]
  · simp [messageToSend, hft, getField, getFieldIn]
  · intro m hm
    simp [messageToSend, hm]

/-- Witness for the amended statement of claim C2 at a concrete topic, payload and
pass-through object. -/
theorem envelope_carries_topic_and_payload_witness :
    getField (messageToSend (.str "com.sc2ctl.bighead.question_display") (.obj []))
      "topic" = some (.str "com.sc2ctl.bighead.question_display") ∧
    messageToSend (.obj [("topic", Json.str "x")]) (.obj [])
      = .obj [("topic", Json.str "x")] :=
  ⟨(envelope_carries_topic_and_payload "com.sc2ctl.bighead.question_display" (.obj [])).1,
   (envelope_carries_topic_and_payload "com.sc2ctl.bighead.question_display" (.obj [])).2.2
     (.obj [("topic", Json.str "x")]) (by rfl)⟩

/-! ## Theorem for claim C4 (question-cell click routing) -/

/-- Claim C4: a selection message is sent only when the clicker is admin or
the controlling player and the question is neither used nor a placeholder,
and the topic is the double-big-head wager route exactly when the question is
flagged `double_big_head`, the direct question-display route otherwise. -/
theorem cell_click_routing (isAdmin isPlaceholder : Bool)
    (controllingPlayer playerName : Option String)
    (q : Question) (categoryName : String) :
    (handleClick isAdmin (canSelect controllingPlayer playerName) isPlaceholder q categoryName
        ≠ none →
      (isAdmin = true ∨ canSelect controllingPlayer playerName = true) ∧
        q.used = false ∧ isPlaceholder = false) ∧
    (∀ msg, handleClick isAdmin (canSelect controllingPlayer playerName) isPlaceholder
        q categoryName = some msg →
      (msg.topic = "com.sc2ctl.bighead.double_big_head" ↔ q.double_big_head = true) ∧
      (msg.topic = "com.sc2ctl.bighead.question_display" ↔ q.double_big_head = false)) := by
  obtain ⟨v, u, d⟩ := q
  generalize canSelect controllingPlayer playerName = cs
  cases isAdmin <;> cases isPlaceholder <;> cases cs <;> cases u <;> cases d <;>
    simp [handleClick]

/-- Witness for claim C4: the controlling player clicks an unused,
non-placeholder double-big-head question and the wager route is taken. -/
theorem cell_click_routing_witness :
    ((CellMessage.mk "com.sc2ctl.bighead.double_big_head" "TOYS" 800).topic
        = "com.sc2ctl.bighead.double_big_head" ↔ (true : Bool) = true) ∧
    ((CellMessage.mk "com.sc2ctl.bighead.double_big_head" "TOYS" 800).topic
        = "com.sc2ctl.bighead.question_display" ↔ (true : Bool) = false) :=
  (cell_click_routing false false (some "Alice") (some "Alice")
      ⟨800, false, true⟩ "TOYS").2
    ⟨"com.sc2ctl.bighead.double_big_head", "TOYS", 800⟩ (by decide)

/-! ## Theorem for claim C5 (players who answered wrong cannot buzz) -/

/-- Claim C5: a player listed in `incorrectPlayers` triggers no buzz from the
spacebar path, has no clickable buzzer element rendered (so no click path),
and on every path a buzz is sent only while the active buzzer is shown. -/
theorem incorrect_player_never_buzzes (code : String) (showActiveBuzzer double_big_head : Bool)
    (lastBuzzer : Option String) (incorrectPlayers : List String) (playerName : String) :
    (incorrectPlayers.contains playerName = true →
      handleKeyDown code showActiveBuzzer incorrectPlayers playerName = none ∧
      buzzerRendered double_big_head lastBuzzer incorrectPlayers playerName = false) ∧
    (∀ msg, handleKeyDown code showActiveBuzzer incorrectPlayers playerName = some msg →
      showActiveBuzzer = true) ∧
    (∀ rendered msg, clickBuzz rendered showActiveBuzzer playerName = some msg →
      showActiveBuzzer = true) := by
  refine ⟨?_, ?_, ?_⟩
  · intro hin
    constructor
    · unfold handleKeyDown
      rw [hin]
      simp
    · unfold buzzerRendered
      rw [hin]
      simp
  · intro msg hmsg
    cases showActiveBuzzer with
    | true => rfl
    | false => simp [handleKeyDown, handleBuzz] at hmsg
  · intro rendered msg hmsg
    cases showActiveBuzzer with
    | true => rfl
    | false => simp [clickBuzz, handleBuzz] at hmsg

/-- Witness for claim C5 at a concrete excluded player: Bob is in
`incorrectPlayers`, so both buzz paths send nothing even with the buzzer
shown active. -/
theorem incorrect_player_never_buzzes_witness :
    handleKeyDown "Space" true ["Bob"] "Bob" = none ∧
    buzzerRendered false none ["Bob"] "Bob" = false :=
  (incorrect_player_never_buzzes "Space" true false none ["Bob"] "Bob").1 (by decide)

/-! ## Theorem for claim C6 (wager submission guard) -/

/-- Claim C6: the wager submission is sent exactly when a double-big-head
negotiation exists and the local player is its selecting player; any other
player activating the submit control sends nothing. -/
theorem bet_submit_only_selecting_player (doubleBigHead : Option DoubleBigHead)
    (playerName : String) (betAmount : Int) :
    (handleBetSubmit doubleBigHead playerName betAmount ≠ none →
      ∃ dbh, doubleBigHead = some dbh ∧ playerName = dbh.selectingPlayer) ∧
    (∀ dbh : DoubleBigHead, playerName ≠ dbh.selectingPlayer →
      handleBetSubmit (some dbh) playerName betAmount = none) ∧
    handleBetSubmit none playerName betAmount = none := by
  refine ⟨?_, ?_, rfl⟩
  · intro hsent
    match hd : doubleBigHead with
    | none => exact absurd (by simp [handleBetSubmit]) hsent
    | some dbh =>
      by_cases hp : playerName == dbh.selectingPlayer
      · exact ⟨dbh, rfl, by simpa using hp⟩
      · exact absurd (by simp [handleBetSubmit, hp]) hsent
  · intro dbh hne
    simp [handleBetSubmit, hne]

/-- Witness for claim C6: Bob cannot submit a wager when Alice is the
selecting player. -/
theorem bet_submit_only_selecting_player_witness :
    handleBetSubmit (some ⟨"Alice"⟩) "Bob" 500 = none :=
  (bet_submit_only_selecting_player (some ⟨"Alice"⟩) "Bob" 500).2.1 ⟨"Alice"⟩ (by decide)

/-! ## Theorems for claim C8 (reconnect attempt cap and backoff) -/

/-- Helper: processing any run of close events schedules at most
`maxReconnectAttempts - attempts` reconnects. -/
theorem closeRun_count_le (cs : List Nat) :
    ∀ s : WSClient, s.attempts ≤ maxReconnectAttempts →
      (closeRun s cs).2 + s.attempts ≤ maxReconnectAttempts := by
  induction cs with
  | nil =>
    intro s h
    simpa [closeRun] using h
  | cons c cs ih =>
    intro s h
    simp only [closeRun]
    by_cases hc : c = 4004
    · simpa [onClose, hc] using ih s h
    · by_cases ha : s.attempts < maxReconnectAttempts
      · have hnext := ih ⟨s.attempts + 1⟩ (by show s.attempts + 1 ≤ maxReconnectAttempts; omega)
        simp only [onClose, if_neg hc, if_pos ha, Option.isSome_some, if_true] at *
        omega
      · simpa [onClose, hc, ha] using ih s h

/-- Claim C8: from a fresh counter, any run of closures schedules at most 5
reconnects; while below the cap a non-4004 closure schedules the retry after
`min(1000 * 2 ^ attempts, 10000)` ms and increments the counter; at the cap
nothing further is scheduled; a successful open resets the counter to 0. -/
theorem reconnect_backoff_and_cap (k c : Nat) (s : WSClient) :
    (∀ cs : List Nat, (closeRun ⟨0⟩ cs).2 ≤ maxReconnectAttempts) ∧
    (c ≠ 4004 → k < maxReconnectAttempts →
      onClose ⟨k⟩ c = (⟨k + 1⟩, some (min (1000 * 2 ^ k) 10000))) ∧
    (maxReconnectAttempts ≤ k → (onClose ⟨k⟩ c).2 = none) ∧
    (onOpen s).attempts = 0 := by
  refine ⟨?_, ?_, ?_, rfl⟩
  · intro cs
    simpa using closeRun_count_le cs ⟨0⟩ (Nat.zero_le _)
  · intro hc hk
    simp [onClose, hc, hk, reconnectDelay]
  · intro hk
    have hnk : ¬ k < maxReconnectAttempts := by omega
    by_cases hc : c = 4004
    · simp [onClose, hc]
    · simp [onClose, hc, hnk]

/-- Witness for claim C8: six 1006 closures from a fresh counter schedule at
most five retries; the third retry is delayed 4000 ms; a sixth close
schedules nothing; an open resets the counter. -/
theorem reconnect_backoff_and_cap_witness :
    (closeRun ⟨0⟩ [1006, 1006, 1006, 1006, 1006, 1006]).2 ≤ maxReconnectAttempts ∧
    onClose ⟨2⟩ 1006 = (⟨3⟩, some (min (1000 * 2 ^ 2) 10000)) ∧
    (onClose ⟨5⟩ 1006).2 = none ∧
    (onOpen ⟨3⟩).attempts = 0 :=
  ⟨(reconnect_backoff_and_cap 2 1006 ⟨3⟩).1 [1006, 1006, 1006, 1006, 1006, 1006],
   (reconnect_backoff_and_cap 2 1006 ⟨3⟩).2.1 (by decide) (by decide),
   (reconnect_backoff_and_cap 5 1006 ⟨3⟩).2.2.1 (by decide),
   (reconnect_backoff_and_cap 2 1006 ⟨3⟩).2.2.2⟩

/-! ## Theorems for claim C7 (control transfer on resolution) -/

/-- Helper: one incorrect answer preserves the control invariant. -/
theorem controlInv_step (c0 a : String) (s : Session)
    (h : ControlInv c0 s) : ControlInv c0 (answerIncorrect s a) := by
  obtain ⟨h1, h2⟩ := h
  cases hq : s.openQuestion with
  | none =>
    unfold answerIncorrect
    rw [hq]
    exact ⟨h1, h2⟩
  | some q =>
    obtain ⟨hprev, hhs⟩ := h2 q hq
    simp only [answerIncorrect, hq, hhs, Bool.false_eq_true, if_false]
    by_cases he : (eligiblePlayers (addScore s.players a (-q.value))
        { q with highStakes := false, excluded := a :: q.excluded }).isEmpty = true
    · rw [if_pos he]
      exact ⟨fun _ => hprev, fun q' hq' => by simp at hq'⟩
    · rw [if_neg he]
      refine ⟨fun hn => by simp at hn, fun q' hq' => ?_⟩
      have hq'eq : q' = { q with highStakes := false, excluded := a :: q.excluded } := by
        simpa using hq'.symm
      subst hq'eq
      exact ⟨hprev, rfl⟩

/-- Helper: the invariant is preserved along any run of incorrect answers. -/
theorem controlInv_foldl (c0 : String) (l : List String) :
    ∀ s : Session, ControlInv c0 s → ControlInv c0 (l.foldl answerIncorrect s) := by
  induction l with
  | nil => intro s h; exact h
  | cons a l ih => intro s h; exact ih _ (controlInv_step c0 a s h)

/-- Claim C7: when a normal question selected from session `s` resolves after
a run of incorrect answers (no eligible player left), control is back with
the controller `s` had before selection — in particular not with the last
wrong answerer, whoever that was, unless they are that prior controller; and
one incorrect answer to a high-stakes question keeps control with the
selecting player, who is the controller that selected it. -/
theorem control_reverts_to_prior_controller (s : Session) (value wager : Int)
    (answerers : List String) (a last : String) :
    ((answerers.foldl answerIncorrect (selectQuestion s value false wager)).openQuestion = none →
      (answerers.foldl answerIncorrect (selectQuestion s value false wager)).controller
        = s.controller) ∧
    ((answerers.foldl answerIncorrect (selectQuestion s value false wager)).openQuestion = none →
      last ≠ s.controller →
      (answerers.foldl answerIncorrect (selectQuestion s value false wager)).controller
        ≠ last) ∧
    (answerIncorrect (selectQuestion s value true wager) a).controller = s.controller := by
  have hinit : ControlInv s.controller (selectQuestion s value false wager) := by
    constructor
    · intro hn
      simp [selectQuestion] at hn
    · intro q hq
      have : q = ⟨value, false, wager, s.controller, s.controller, []⟩ := by
        simpa [selectQuestion] using hq.symm
      subst this
      exact ⟨rfl, rfl⟩
  have hfold := controlInv_foldl s.controller answerers _ hinit
  refine ⟨fun hn => hfold.1 hn, fun hn hne => ?_, ?_⟩
  · rw [hfold.1 hn]
    exact fun h => hne h.symm
  · simp [selectQuestion, answerIncorrect]

/-- Witness for claim C7: Alice holds control and selects; Bob then Host then
Alice all answer wrong, the question closes and control is with Alice again;
and a wrong high-stakes answer leaves control with the selecting player. -/
theorem control_reverts_to_prior_controller_witness :
    ((["Bob", "Host", "Alice"].foldl answerIncorrect
        (selectQuestion ⟨[⟨"Alice", 200, true⟩, ⟨"Bob", 0, true⟩, ⟨"Host", 0, true⟩],
          "Alice", none⟩ 400 false 0)).controller = "Alice") ∧
    ((["Bob", "Host", "Alice"].foldl answerIncorrect
        (selectQuestion ⟨[⟨"Alice", 200, true⟩, ⟨"Bob", 0, true⟩, ⟨"Host", 0, true⟩],
          "Alice", none⟩ 400 false 0)).controller ≠ "Bob") ∧
    (answerIncorrect (selectQuestion ⟨[⟨"Alice", 200, true⟩, ⟨"Bob", 0, true⟩,
        ⟨"Host", 0, true⟩], "Alice", none⟩ 800 true 500) "Alice").controller = "Alice" := by
  have h := control_reverts_to_prior_controller
    ⟨[⟨"Alice", 200, true⟩, ⟨"Bob", 0, true⟩, ⟨"Host", 0, true⟩], "Alice", none⟩
    400 0 ["Bob", "Host", "Alice"] "Alice" "Bob"
  have h2 := control_reverts_to_prior_controller
    ⟨[⟨"Alice", 200, true⟩, ⟨"Bob", 0, true⟩, ⟨"Host", 0, true⟩], "Alice", none⟩
    800 500 ["Bob", "Host", "Alice"] "Alice" "Bob"
  exact ⟨h.1 (by decide), h.2.1 (by decide) (by decide), h2.2.2⟩

/-! ## Theorem for claim C9 (buzzer activation confirmation and reset) -/

/-- Claim C9: the first buzzer-active signal does not show the active UI
immediately but schedules the 500 ms confirmation, whose firing shows the UI
only if the question is unchanged and the buzzer still active; an inactive
signal hides the active UI at once; and a question change runs the reset of
the activation flag, active UI, progress values and animation intervals. -/
theorem buzzer_activation_confirmed (s : ModalBuzzerState) (q : Nat) :
    (s.hasBeenActivated = false → s.buzzerActive = false → s.showActiveBuzzer = false →
      (stepModal s (.buzzer true)).showActiveBuzzer = false ∧
      (stepModal s (.buzzer true)).pendingConfirm = some 500 ∧
      (stepModal s (.buzzer true)).hasBeenActivated = true) ∧
    ((stepModal s .confirmFire).showActiveBuzzer = true →
      s.showActiveBuzzer = true ∨
        (s.pendingConfirm.isSome = true ∧ s.currentQuestion = s.questionRef ∧
          s.buzzerActive = true)) ∧
    (s.buzzerActive = true →
      (stepModal s (.buzzer false)).showActiveBuzzer = false ∧
      (stepModal s (.buzzer false)).timerProgress = 0 ∧
      (stepModal s (.buzzer false)).timerRunning = false) ∧
    (s.currentQuestion = some q → s.questionRef ≠ some q →
      (resetEffect s).questionRef = some q ∧
      (resetEffect s).hasBeenActivated = false ∧
      (resetEffect s).showActiveBuzzer = false ∧
      (resetEffect s).timerProgress = 0 ∧
      (resetEffect s).answerTimerProgress = 0 ∧
      (resetEffect s).timerRunning = false ∧
      (resetEffect s).answerTimerRunning = false) := by
  refine ⟨?_, ?_, ?_, ?_⟩
  · intro hact hba hshow
    simp [stepModal, hba, buzzerEffect, hact, hshow]
  · intro hshown
    cases hp : s.pendingConfirm with
    | none =>
      simp [stepModal, hp] at hshown
      exact Or.inl hshown
    | some d =>
      by_cases hc : s.currentQuestion = s.questionRef ∧ s.buzzerActive = true
      · exact Or.inr ⟨by simp [hp], hc.1, hc.2⟩
      · left
        simpa [stepModal, hp, hc] using hshown
  · intro hba
    simp [stepModal, hba, buzzerEffect]
  · intro hcq hne
    simp [resetEffect, hcq, hne]

/-- Witness for claim C9 at concrete modal states: a first activation only
schedules the confirmation; a confirmation firing with the question unchanged
shows the UI; a deactivation hides it; a question change resets tracking. -/
theorem buzzer_activation_confirmed_witness :
    ((stepModal ⟨some 1, false, some 1, false, false, none, false, 0, false, 0⟩
        (.buzzer true)).showActiveBuzzer = false ∧
      (stepModal ⟨some 1, false, some 1, false, false, none, false, 0, false, 0⟩
        (.buzzer true)).pendingConfirm = some 500 ∧
      (stepModal ⟨some 1, false, some 1, false, false, none, false, 0, false, 0⟩
        (.buzzer true)).hasBeenActivated = true) ∧
    ((⟨some 1, true, some 1, true, false, some 500, false, 0, false, 0⟩
        : ModalBuzzerState).showActiveBuzzer = true ∨
      ((⟨some 1, true, some 1, true, false, some 500, false, 0, false, 0⟩
          : ModalBuzzerState).pendingConfirm.isSome = true ∧
        (⟨some 1, true, some 1, true, false, some 500, false, 0, false, 0⟩
          : ModalBuzzerState).currentQuestion
          = (⟨some 1, true, some 1, true, false, some 500, false, 0, false, 0⟩
            : ModalBuzzerState).questionRef ∧
        (⟨some 1, true, some 1, true, false, some 500, false, 0, false, 0⟩
          : ModalBuzzerState).buzzerActive = true)) ∧
    ((stepModal ⟨some 1, true, some 1, true, true, none, true, 40, false, 0⟩
        (.buzzer false)).showActiveBuzzer = false ∧
      (stepModal ⟨some 1, true, some 1, true, true, none, true, 40, false, 0⟩
        (.buzzer false)).timerProgress = 0 ∧
      (stepModal ⟨some 1, true, some 1, true, true, none, true, 40, false, 0⟩
        (.buzzer false)).timerRunning = false) ∧
    ((resetEffect ⟨some 2, false, some 1, true, true, none, true, 60, true, 30⟩).questionRef
        = some 2 ∧
      (resetEffect ⟨some 2, false, some 1, true, true, none, true, 60, true, 30⟩).hasBeenActivated
        = false ∧
      (resetEffect ⟨some 2, false, some 1, true, true, none, true, 60, true, 30⟩).showActiveBuzzer
        = false ∧
      (resetEffect ⟨some 2, false, some 1, true, true, none, true, 60, true, 30⟩).timerProgress
        = 0 ∧
      (resetEffect ⟨some 2, false, some 1, true, true, none, true, 60, true, 30⟩).answerTimerProgress
        = 0 ∧
      (resetEffect ⟨some 2, false, some 1, true, true, none, true, 60, true, 30⟩).timerRunning
        = false ∧
      (resetEffect ⟨some 2, false, some 1, true, true, none, true, 60, true, 30⟩).answerTimerRunning
        = false) :=
  ⟨(buzzer_activation_confirmed
      ⟨some 1, false, some 1, false, false, none, false, 0, false, 0⟩ 2).1
      (by decide) (by decide) (by decide),
   (buzzer_activation_confirmed
      ⟨some 1, true, some 1, true, false, some 500, false, 0, false, 0⟩ 2).2.1
      (by decide),
   (buzzer_activation_confirmed
      ⟨some 1, true, some 1, true, true, none, true, 40, false, 0⟩ 2).2.2.1
      (by decide),
   (buzzer_activation_confirmed
      ⟨some 2, false, some 1, true, true, none, true, 60, true, 30⟩ 2).2.2.2
      (by decide) (by decide)⟩

/-! ## Theorems for claim C10 (end-game scoreboard) -/

/-- Helper: membership after descending insertion. -/
theorem mem_insertByScoreDesc (x y : String × Int) (l : List (String × Int))
    (h : y ∈ insertByScoreDesc x l) : y = x ∨ y ∈ l := by
  induction l with
  | nil => simpa [insertByScoreDesc] using h
  | cons z zs ih =>
    unfold insertByScoreDesc at h
    by_cases hlt : z.2 < x.2
    · rw [if_pos hlt] at h
      simpa using h
    · rw [if_neg hlt] at h
      rcases List.mem_cons.mp h with h1 | h1
      · exact Or.inr (by simp [h1])
      · rcases ih h1 with h2 | h2
        · exact Or.inl h2
        · exact Or.inr (List.mem_cons_of_mem _ h2)

/-- Helper: descending insertion preserves the non-increasing order. -/
theorem pairwise_insertByScoreDesc (x : String × Int) (l : List (String × Int))
    (h : l.Pairwise (fun a b => b.2 ≤ a.2)) :
    (insertByScoreDesc x l).Pairwise (fun a b => b.2 ≤ a.2) := by
  induction l with
  | nil => simp [insertByScoreDesc]
  | cons z zs ih =>
    rw [List.pairwise_cons] at h
    obtain ⟨hz, hzs⟩ := h
    unfold insertByScoreDesc
    by_cases hlt : z.2 < x.2
    · rw [if_pos hlt]
      refine List.Pairwise.cons ?_ (List.Pairwise.cons hz hzs)
      intro b hb
      rcases List.mem_cons.mp hb with rfl | hb2
      · exact le_of_lt hlt
      · exact le_trans (hz b hb2) (le_of_lt hlt)
    · rw [if_neg hlt]
      refine List.Pairwise.cons ?_ (ih hzs)
      intro b hb
      rcases mem_insertByScoreDesc x b zs hb with rfl | hb2
      · omega
      · exact hz b hb2

/-- Helper: the modelled sort produces a non-increasing score order. -/
theorem pairwise_sortByScoreDesc (l : List (String × Int)) :
    (sortByScoreDesc l).Pairwise (fun a b => b.2 ≤ a.2) := by
  induction l with
  | nil => simp [sortByScoreDesc]
  | cons x xs ih => exact pairwise_insertByScoreDesc x _ ih

/-- Helper: descending insertion is a permutation of consing. -/
theorem perm_insertByScoreDesc (x : String × Int) (l : List (String × Int)) :
    (insertByScoreDesc x l).Perm (x :: l) := by
  induction l with
  | nil => exact List.Perm.refl _
  | cons z zs ih =>
    unfold insertByScoreDesc
    by_cases hlt : z.2 < x.2
    · rw [if_pos hlt]
    · rw [if_neg hlt]
      exact (List.Perm.cons z ih).trans (List.Perm.swap x z zs)

/-- Helper: the modelled sort is a permutation of its input. -/
theorem perm_sortByScoreDesc (l : List (String × Int)) :
    (sortByScoreDesc l).Perm l := by
  induction l with
  | nil => exact List.Perm.refl _
  | cons x xs ih =>
    exact (perm_insertByScoreDesc x (sortByScoreDesc xs)).trans (List.Perm.cons x ih)

/-- Helper: the rendered rows keep the scores of the underlying list. -/
theorem scoreRows_map_score (winner : String) (l : List (String × Int)) :
    ∀ i, (scoreRows winner i l).map ScoreRow.score = l.map Prod.snd := by
  induction l with
  | nil => intro i; rfl
  | cons p rest ih =>
    intro i
    cases p
    simp [scoreRows, ih]

/-- Helper: the rendered ranks count up from one past the starting index. -/
theorem scoreRows_map_rank (winner : String) (l : List (String × Int)) :
    ∀ i, (scoreRows winner i l).map ScoreRow.rank = List.range' (i + 1) l.length := by
  induction l with
  | nil => intro i; rfl
  | cons p rest ih =>
    intro i
    cases p
    simp [scoreRows, List.range'_succ, ih]

/-- Helper: the rendered rows have as many entries as the underlying list. -/
theorem scoreRows_length (winner : String) (l : List (String × Int)) :
    ∀ i, (scoreRows winner i l).length = l.length := by
  induction l with
  | nil => intro i; rfl
  | cons p rest ih =>
    intro i
    cases p
    simp [scoreRows, ih]

/-- Helper: the winner highlight of each row agrees with its name equalling
the winner. -/
theorem scoreRows_map_highlight (winner : String) (l : List (String × Int)) :
    ∀ i, (scoreRows winner i l).map ScoreRow.winnerHighlight
      = (scoreRows winner i l).map (fun r => r.name == winner) := by
  induction l with
  | nil => intro i; rfl
  | cons p rest ih =>
    intro i
    cases p
    simp [scoreRows, ih]

/-- Helper: the rows carry exactly the name-score pairs of the list. -/
theorem scoreRows_map_entry (winner : String) (l : List (String × Int)) :
    ∀ i, (scoreRows winner i l).map (fun r => (r.name, r.score)) = l := by
  induction l with
  | nil => intro i; rfl
  | cons p rest ih =>
    intro i
    cases p
    simp [scoreRows, ih]

/-- Claim C10: the end-game screen renders nothing without `finalResults`;
with results, the rows are in non-increasing score order, ranked 1, 2, ...,
highlight exactly the rows whose name equals the winner, and are exactly the
score entries. -/
theorem endgame_screen_rows (scores : List (String × Int)) (winner : String) :
    renderEndGame none = none ∧
    (∀ rows, renderEndGame (some (scores, winner)) = some rows →
      (rows.map ScoreRow.score).Pairwise (fun a b : Int => b ≤ a) ∧
      rows.map ScoreRow.rank = List.range' 1 rows.length ∧
      rows.map ScoreRow.winnerHighlight = rows.map (fun r => r.name == winner) ∧
      (rows.map (fun r => (r.name, r.score))).Perm scores) := by
  refine ⟨rfl, ?_⟩
  intro rows hrows
  have hrows2 : rows = scoreRows winner 0 (sortByScoreDesc scores) := by
    simpa [renderEndGame] using hrows.symm
  subst hrows2
  refine ⟨?_, ?_, scoreRows_map_highlight winner _ 0, ?_⟩
  · rw [scoreRows_map_score]
    exact List.pairwise_map.mpr (pairwise_sortByScoreDesc scores)
  · rw [scoreRows_map_rank, scoreRows_length]
  · rw [scoreRows_map_entry]
    exact perm_sortByScoreDesc scores

/-- Witness for claim C10 at a three-player final scoreboard with Alice the
winner. -/
theorem endgame_screen_rows_witness :
    (([⟨1, "Alice", 200, true⟩, ⟨2, "Host", 0, false⟩, ⟨3, "Bob", -400, false⟩]
        : List ScoreRow).map ScoreRow.score).Pairwise (fun a b : Int => b ≤ a) ∧
    ([⟨1, "Alice", 200, true⟩, ⟨2, "Host", 0, false⟩, ⟨3, "Bob", -400, false⟩]
        : List ScoreRow).map ScoreRow.rank
      = List.range' 1 ([⟨1, "Alice", 200, true⟩, ⟨2, "Host", 0, false⟩,
          ⟨3, "Bob", -400, false⟩] : List ScoreRow).length ∧
    ([⟨1, "Alice", 200, true⟩, ⟨2, "Host", 0, false⟩, ⟨3, "Bob", -400, false⟩]
        : List ScoreRow).map ScoreRow.winnerHighlight
      = ([⟨1, "Alice", 200, true⟩, ⟨2, "Host", 0, false⟩, ⟨3, "Bob", -400, false⟩]
        : List ScoreRow).map (fun r => r.name == "Alice") ∧
    (([⟨1, "Alice", 200, true⟩, ⟨2, "Host", 0, false⟩, ⟨3, "Bob", -400, false⟩]
        : List ScoreRow).map (fun r => (r.name, r.score))).Perm
      [("Bob", -400), ("Alice", 200), ("Host", 0)] :=
  (endgame_screen_rows [("Bob", -400), ("Alice", 200), ("Host", 0)] "Alice").2
    [⟨1, "Alice", 200, true⟩, ⟨2, "Host", 0, false⟩, ⟨3, "Bob", -400, false⟩]
    (by decide)

end BigHead
